import Mathlib

/-!
Verification development for the Suchify theme boilerplate: a shallow
embedding of the storefront rendering functions (`main.js`), the store API
client (`api-client.js`) and the custom API request helper
(`custom-api.js`), together with theorems settling the frozen claims about
them.

Conventions of the embedding:
  * JavaScript strings are Lean `String`s; the handful of `String.prototype`
    operations the source uses (`trim`, `split(/\s+/)`, `substring`,
    `charAt`, `toUpperCase`) are re-implemented structurally on `List Char`
    so that every definition evaluates by kernel reduction (ASCII-faithful;
    the source never relies on non-ASCII case mapping).
  * JavaScript truthiness on optional strings / numbers is made explicit
    (`jsStrTruthy`, `jsOrStr`, `jsNumTruthy`): `undefined`/`null` are
    `none`, and `""` / `0` are falsy values.
  * Numeric amounts (prices, totals, quantities) are `Int`; no claim
    depends on decimal arithmetic.
  * DOM-effecting handlers (`addToCart`, `updateCartQuantity`,
    `handleCheckout`, `loadStoreData`) are embedded as explicit state
    transition functions: the outcome of the underlying API promise is an
    `Except String _` argument, and the observable effects (cart value,
    API call issued, `alert` message, final state of the triggering
    control) are fields of the returned outcome record.
-/

set_option maxRecDepth 4096

namespace Theme

/-! ## Data model (spec §3, shapes used by `main.js` / `api-client.js`) -/

/-- A social link of the store (`storeData.social_links` entries). -/
structure SocialLink where
  platform : String
  url : String
  enabled : Bool
deriving DecidableEq, Repr

/-- `storeData.configuration`: currency code and fulfilment flags. -/
structure StoreConfiguration where
  currency : Option String
  delivery_enabled : Bool
  pickup_enabled : Bool
deriving DecidableEq, Repr

/-- The Store entity as `main.js` reads it; optional fields are `Option`
(`none` models JS `undefined`/`null`). -/
structure Store where
  name : Option String
  description : Option String
  logo_url : Option String
  social_links : List SocialLink
  phone : Option String
  email : Option String
  address : Option String
  configuration : Option StoreConfiguration
deriving DecidableEq, Repr

/-- The Product entity. `stock_quantity = none` models JS `null`
(unlimited stock). -/
structure Product where
  id : String
  name : String
  description : Option String
  price : Int
  category : String
  image_url : Option String
  stock_quantity : Option Int
  is_available : Bool
  tags : List String
deriving DecidableEq, Repr

/-- A category with its derived product count (`cat.product_count`). -/
structure Category where
  name : String
  product_count : Option Nat
deriving DecidableEq, Repr

/-- A promotion (`promo.name`, `promo.description`, `promo.code`). -/
structure Promotion where
  id : String
  name : String
  description : Option String
  code : Option String
deriving DecidableEq, Repr

/-- A cart line item, the denormalized snapshot the server returns. -/
structure CartItem where
  product_id : String
  product_name : String
  quantity : Int
  unit_price : Int
  total_price : Int
deriving DecidableEq, Repr

/-- The Cart aggregate: always the literal return value of the last
successful mutation call. -/
structure Cart where
  items : List CartItem
  subtotal : Int
  tax : Int
  total : Int
deriving DecidableEq, Repr

/-- The initial cart of a session:
`cart = { items: [], subtotal: 0, tax: 0, total: 0 }` in `main.js`. -/
def initialCart : Cart := ⟨[], 0, 0, 0⟩

/-! ## JavaScript string / truthiness helpers -/

/-- JS truthiness of an optional string: `undefined`, `null` and `""` are
falsy. -/
def jsStrTruthy : Option String → Bool
  | some s => s ≠ ""
  | none => false

/-- JS `x || d` for an optional string `x`. -/
def jsOrStr (x : Option String) (d : String) : String :=
  match x with
  | some s => if s = "" then d else s
  | none => d

/-- JS truthiness of an optional number: `undefined`, `null` and `0` are
falsy. -/
def jsNumTruthy : Option Int → Bool
  | some n => n ≠ 0
  | none => false

/-- One step of the text-node serialization the DOM performs in
`escapeHtml` (`div.textContent = text; div.innerHTML`): `&`, `<` and `>`
become entities, every other character — quotes included — passes through
unchanged. -/
def escChar (c : Char) : List Char :=
  if c = '&' then ['&', 'a', 'm', 'p', ';']
  else if c = '<' then ['&', 'l', 't', ';']
  else if c = '>' then ['&', 'g', 't', ';']
  else [c]

/-- `escChar` mapped over a character list. -/
def escList : List Char → List Char
  | [] => []
  | c :: cs => escChar c ++ escList cs

/-- `escapeHtml(text)` from `main.js`: models the DOM round trip
`div.textContent = text; return div.innerHTML`, which per the HTML
fragment-serialization algorithm escapes `&`, `<`, `>` in text data and
leaves quote characters unescaped. -/
def escapeHtml (text : String) : String :=
  String.mk (escList text.data)

/-! ## Initials (`generateInitials` in `main.js`) -/

/-- Splitter for JS `name.trim().split(/\s+/)` on a character list:
whitespace runs separate words, leading/trailing whitespace contributes
nothing (the `trim`). -/
def splitWsAux : List Char → List Char → List (List Char)
  | [], acc => if acc.isEmpty then [] else [acc.reverse]
  | c :: cs, acc =>
    if c.isWhitespace then
      if acc.isEmpty then splitWsAux cs [] else acc.reverse :: splitWsAux cs []
    else splitWsAux cs (c :: acc)

/-- The word list of JS `name.trim().split(/\s+/)`: on a string that trims
to empty, JS yields `[""]` (one empty word), modelled as `[[]]`. -/
def jsWords (name : String) : List (List Char) :=
  let w := splitWsAux name.data []
  if w.isEmpty then [[]] else w

/-- JS `toUpperCase` (ASCII case map, matching every use in the source). -/
def jsToUpper (s : String) : String :=
  String.mk (s.data.map Char.toUpper)

/-- `generateInitials(name)` from `main.js`: `"ST"` for a falsy name; for a
single word (after `trim`/`split(/\s+/)`) the first two characters of the
raw name uppercased (`name.substring(0, 2).toUpperCase()`); otherwise the
first characters of the first two words uppercased. -/
def generateInitials (name : String) : String :=
  if name = "" then "ST"
  else
    let words := jsWords name
    if words.length = 1 then jsToUpper (String.mk (name.data.take 2))
    else jsToUpper (String.mk ((words.headD []).take 1 ++ ((words[1]?).getD []).take 1))

/-- The claim's own wording of the initials derivation, stated
independently of `generateInitials`: first two letters of a single-word
name, first letter of each of the first two words of a multi-word name,
`"ST"` for the empty name. -/
def initialsClaimed (name : String) : String :=
  if name = "" then "ST"
  else if (jsWords name).length = 1 then jsToUpper (String.mk (name.data.take 2))
  else
    jsToUpper
      (String.mk (((jsWords name).headD []).take 1 ++ (((jsWords name)[1]?).getD []).take 1))

/-! ## Rendering engine (`main.js`) -/

/-- JS `list.map(f).join('')`: the images of `f` concatenated in order. -/
def concatMap {α : Type} (f : α → String) : List α → String
  | [] => ""
  | x :: xs => f x ++ concatMap f xs

/-- `formatPrice(price, currency)` wraps
`Intl.NumberFormat('en-US', { style: 'currency', currency }).format(price)`,
a browser API outside the repository; modelled abstractly as a
currency-tagged rendering of the numeric value. No claim depends on the
exact text it produces. -/
def formatPrice (price : Int) (currency : String) : String :=
  currency ++ " " ++ toString price

/-- The store's currency code as the renderers read it:
`storeData.configuration?.currency || 'USD'`. -/
def storeCurrency (storeData : Store) : String :=
  jsOrStr (storeData.configuration.bind (·.currency)) "USD"

/-- The `logo` local of `renderHeader`: the `<img>` with initials
fallback when `storeData.logo_url` is truthy, empty otherwise. -/
def headerLogo (storeData : Store) : String :=
  if jsStrTruthy storeData.logo_url then
    "<img src=\"" ++ escapeHtml (storeData.logo_url.getD "") ++ "\" alt=\""
      ++ escapeHtml (jsOrStr storeData.name "Store")
      ++ "\" class=\"logo\" onerror=\"this.style.display='none'; const initialsEl = this.nextElementSibling; if(initialsEl) initialsEl.style.display='flex';\">"
  else ""

/-- The `initialsLogo` local of `renderHeader`: the initials badge,
hidden while an image logo is configured. -/
def headerInitialsLogo (storeData : Store) : String :=
  "<div class=\"logo-initials\" style=\""
    ++ (if jsStrTruthy storeData.logo_url then "display: none;" else "")
    ++ "\">" ++ escapeHtml (generateInitials (jsOrStr storeData.name "Store")) ++ "</div>"

/-- The markup of one social link anchor in `renderHeader`. -/
def socialLinkAnchor (link : SocialLink) : String :=
  "<a href=\"" ++ escapeHtml link.url
    ++ "\" target=\"_blank\" rel=\"noopener noreferrer\" class=\"social-link\">"
    ++ escapeHtml link.platform ++ "</a>"

/-- The `socialLinks` local of `renderHeader`: enabled links only. -/
def headerSocialLinks (storeData : Store) : String :=
  if storeData.social_links.length > 0 then
    "<div class=\"social-links\">\n        "
      ++ concatMap socialLinkAnchor (storeData.social_links.filter (·.enabled))
      ++ "\n       </div>"
  else ""

/-- The optional description paragraph of `renderHeader`:
`${storeData.description ? `<p class="description">...</p>` : ''}`. -/
def headerDescriptionBlock (storeData : Store) : String :=
  if jsStrTruthy storeData.description then
    "<p class=\"description\">" ++ escapeHtml (storeData.description.getD "") ++ "</p>"
  else ""

/-- `renderHeader()` from `main.js`: logo (or initials badge), `h1` with
the store name, optional description paragraph, enabled social links. -/
def renderHeader (storeData : Store) : String :=
  "\n    <header>\n      " ++ headerLogo storeData ++ "\n      " ++ headerInitialsLogo storeData
    ++ "\n      <h1>" ++ escapeHtml (jsOrStr storeData.name "Store") ++ "</h1>\n      "
    ++ headerDescriptionBlock storeData
    ++ "\n      " ++ headerSocialLinks storeData ++ "\n    </header>\n  "

/-- The markup of one category button in `renderNavigation`. -/
def categoryButton (currentCategory : String) (cat : Category) : String :=
  "\n          <button class=\"category-btn "
    ++ (if currentCategory = cat.name then "active" else "")
    ++ "\" data-category=\"" ++ escapeHtml cat.name ++ "\">\n            "
    ++ escapeHtml cat.name ++ " (" ++ toString (cat.product_count.getD 0)
    ++ ")\n          </button>\n        "

/-- `renderNavigation()` from `main.js`: the "All" button plus one button
per category, the active one marked from `currentCategory`. -/
def renderNavigation (categories : List Category) (currentCategory : String) : String :=
  if categories.length = 0 then ""
  else
    "\n    <nav>\n      <div class=\"category-buttons\">\n        <button class=\"category-btn "
      ++ (if currentCategory = "all" then "active" else "")
      ++ "\" data-category=\"all\">\n          All\n        </button>\n        "
      ++ concatMap (categoryButton currentCategory) categories
      ++ "\n      </div>\n    </nav>\n  "

/-- `renderPromotions()` from `main.js`: empty markup for an empty list,
otherwise the "Special Offers" banner with one item per promotion. -/
def renderPromotions (promotions : List Promotion) : String :=
  if promotions.length = 0 then ""
  else
    "\n    <div class=\"promotions\">\n      <h3 style=\"margin-bottom: 0.5rem;\">Special Offers</h3>\n      "
      ++ concatMap (fun promo =>
          "\n        <div class=\"promotion-item\">\n          <strong>"
            ++ escapeHtml promo.name ++ "</strong>\n          <span>"
            ++ escapeHtml (jsOrStr promo.description "") ++ "</span>\n          "
            ++ (if jsStrTruthy promo.code then
                  "<br><small>Use code: <strong>" ++ escapeHtml (promo.code.getD "")
                    ++ "</strong></small>"
                else "")
            ++ "\n        </div>\n      ") promotions
      ++ "\n    </div>\n  "

/-- The URL-encoded SVG placeholder image of `renderProduct`. -/
def placeholderImage : String :=
  "data:image/svg+xml,%3Csvg xmlns='http://www.w3.org/2000/svg' width='300' height='200'%3E%3Crect width='300' height='200' fill='%23f9fafb'/%3E%3Ctext x='50%25' y='50%25' dominant-baseline='middle' text-anchor='middle' font-family='Arial, sans-serif' font-size='14' fill='%236b7280'%3ENo Image%3C/text%3E%3C/svg%3E"

/-- `placeholderImage.replace(/'/g, "\\'")`: every apostrophe prefixed
with a backslash. -/
def escapeAposList : List Char → List Char
  | [] => []
  | c :: cs => (if c = '\'' then ['\\', c] else [c]) ++ escapeAposList cs

/-- The availability test of `renderProduct`:
`product.is_available && (product.stock_quantity === null || product.stock_quantity > 0)`. -/
def productInStock (product : Product) : Bool :=
  product.is_available &&
    (match product.stock_quantity with
     | none => true
     | some q => decide (q > 0))

/-- The `availability` binding of `renderProduct`: `''` when the product
can be added, the `disabled` attribute otherwise. -/
def availabilityAttr (product : Product) : String :=
  if productInStock product then "" else "disabled"

/-- The add-to-cart button text of `renderProduct`:
`${availability ? 'Out of Stock' : 'Add to Cart'}`. -/
def buttonLabel (product : Product) : String :=
  if availabilityAttr product = "" then "Add to Cart" else "Out of Stock"

/-- The `image` local of `renderProduct`: the product image with a
one-shot placeholder fallback, or the placeholder directly. `now` stands
for `Date.now()` in the generated image id. -/
def productImage (now : Nat) (product : Product) : String :=
  if jsStrTruthy product.image_url then
    "<img id=\"" ++ ("product-img-" ++ product.id ++ "-" ++ toString now)
      ++ "\" src=\"" ++ escapeHtml (product.image_url.getD "")
      ++ "\" alt=\"" ++ escapeHtml product.name
      ++ "\" class=\"product-image\" loading=\"lazy\" decoding=\"async\" onerror=\"if(!this.dataset.fallbackSet)\x7bthis.dataset.fallbackSet='true';this.onerror=null;this.src='"
      ++ String.mk (escapeAposList placeholderImage.data) ++ "';\x7d\">"
  else
    "<img src=\"" ++ placeholderImage ++ "\" alt=\"No image available\" class=\"product-image\">"

/-- The markup of one tag chip in `renderProduct`. -/
def tagSpan (tag : String) : String :=
  "<span class=\"tag\">" ++ escapeHtml tag ++ "</span>"

/-- The `tags` local of `renderProduct`. -/
def productTagsBlock (product : Product) : String :=
  if product.tags.length > 0 then
    "<div class=\"product-tags\">\n        "
      ++ concatMap tagSpan product.tags
      ++ "\n       </div>"
  else ""

/-- The optional description paragraph of `renderProduct`:
`${product.description ? `<p class="product-description">...</p>` : ''}`. -/
def productDescriptionBlock (product : Product) : String :=
  if jsStrTruthy product.description then
    "<p class=\"product-description\">" ++ escapeHtml (product.description.getD "") ++ "</p>"
  else ""

/-- `renderProduct(product)` from `main.js` (the `price` local is the
inlined `formatPrice(product.price, storeData.configuration?.currency || 'USD')`,
the `availability` local is `availabilityAttr`). -/
def renderProduct (storeData : Store) (now : Nat) (product : Product) : String :=
  "\n    <div class=\"product\">\n      " ++ productImage now product
    ++ "\n      <div class=\"product-info\">\n        <h3 class=\"product-name\">"
    ++ escapeHtml product.name ++ "</h3>\n        "
    ++ productDescriptionBlock product
    ++ "\n        " ++ productTagsBlock product
    ++ "\n        <div class=\"product-price\">"
    ++ formatPrice product.price (storeCurrency storeData)
    ++ "</div>\n        <button \n          class=\"add-to-cart-btn\" \n          "
    ++ availabilityAttr product ++ "\n          onclick=\"addToCart('" ++ product.id
    ++ "')\"\n          data-product-id=\"" ++ product.id
    ++ "\"\n        >\n          " ++ buttonLabel product
    ++ "\n        </button>\n      </div>\n    </div>\n  "

/-- The product filter of `renderProducts`: every product when
`currentCategory` is the `"all"` sentinel, otherwise exactly the products
whose `category` equals `currentCategory` (JS `===`, case-sensitive). -/
def filteredProducts (products : List Product) (currentCategory : String) : List Product :=
  if currentCategory = "all" then products
  else products.filter (fun p => p.category = currentCategory)

/-- The empty-state paragraph of `renderProducts`:
`currentCategory === 'all' ? 'This store has no products yet.' : `No products in the "..." category.``. -/
def emptyStateMsg (currentCategory : String) : String :=
  if currentCategory = "all" then "This store has no products yet."
  else "No products in the \"" ++ currentCategory ++ "\" category."

/-- `renderProducts()` from `main.js`. -/
def renderProducts (storeData : Store) (now : Nat) (products : List Product)
    (currentCategory : String) : String :=
  let fp := filteredProducts products currentCategory
  if fp.length = 0 then
    "\n      <div class=\"text-center\" style=\"padding: 3rem;\">\n        <h2>No products found</h2>\n        <p>"
      ++ emptyStateMsg currentCategory ++ "</p>\n      </div>\n    "
  else
    "\n    <div class=\"products\">\n      "
      ++ concatMap (renderProduct storeData now) fp ++ "\n    </div>\n  "

/-- `renderFooter()` from `main.js`. -/
def renderFooter (storeData : Store) : String :=
  let contactInfo :=
    (if jsStrTruthy storeData.phone then
        ["Phone: " ++ escapeHtml (storeData.phone.getD "")] else [])
    ++ (if jsStrTruthy storeData.email then
        ["Email: " ++ escapeHtml (storeData.email.getD "")] else [])
    ++ (if jsStrTruthy storeData.address then
        ["Address: " ++ escapeHtml (storeData.address.getD "")] else [])
  "\n    <footer>\n      "
    ++ (if contactInfo.length > 0 then
          "<p>" ++ String.intercalate " | " contactInfo ++ "</p>"
        else "")
    ++ "\n      <p style=\"margin-top: 1rem; color: var(--text-light); font-size: 0.9rem;\">\n        Powered by Suchify\n      </p>\n    </footer>\n  "

/-- The markup of one cart line in `renderCartItems`. -/
def cartItemRow (storeData : Store) (item : CartItem) : String :=
  "\n    <div class=\"cart-item\">\n      <div class=\"cart-item-info\">\n        <div class=\"cart-item-name\">"
    ++ escapeHtml item.product_name
    ++ "</div>\n        <div class=\"cart-item-price\">"
    ++ formatPrice item.unit_price (storeCurrency storeData) ++ " × "
    ++ toString item.quantity
    ++ "</div>\n      </div>\n      <div class=\"cart-item-quantity\">\n        <button class=\"quantity-btn\" onclick=\"updateCartQuantity('"
    ++ item.product_id ++ "', " ++ toString (item.quantity - 1)
    ++ ")\">-</button>\n        <span>" ++ toString item.quantity
    ++ "</span>\n        <button class=\"quantity-btn\" onclick=\"updateCartQuantity('"
    ++ item.product_id ++ "', " ++ toString (item.quantity + 1)
    ++ ")\">+</button>\n      </div>\n    </div>\n  "

/-- `renderCartItems()` from `main.js`. -/
def renderCartItems (storeData : Store) (cart : Cart) : String :=
  if cart.items.length = 0 then
    "<div class=\"text-center\" style=\"padding: 2rem; color: var(--text-light);\">Your cart is empty</div>"
  else
    concatMap (cartItemRow storeData) cart.items

/-- `renderCart()` from `main.js`: floating cart button plus the cart
panel with items, total and checkout button. -/
def renderCart (storeData : Store) (cart : Cart) : String :=
  let cartCount := cart.items.foldl (fun sum item => sum + item.quantity) 0
  "\n    <div class=\"cart\" onclick=\"toggleCart()\">\n      <svg width=\"24\" height=\"24\" viewBox=\"0 0 24 24\" fill=\"none\" stroke=\"currentColor\" stroke-width=\"2\">\n        <path d=\"M9 21H5a2 2 0 0 1-2-2V9a2 2 0 0 1 2-2h4m7 0V5a2 2 0 0 0-2-2h-2M9 7V5a2 2 0 0 1 2-2h2a2 2 0 0 1 2 2v2m-6 4h8m-8 4h8m-8-8h8\"/>\n      </svg>\n      "
    ++ (if cartCount > 0 then
          "<span class=\"cart-count\">" ++ toString cartCount ++ "</span>"
        else "")
    ++ "\n    </div>\n    <div class=\"cart-panel\" id=\"cart-panel\">\n      <div class=\"cart-header\">\n        <h2>Shopping Cart</h2>\n        <button class=\"close-cart\" onclick=\"toggleCart()\">×</button>\n      </div>\n      <div class=\"cart-items\" id=\"cart-items\">\n        "
    ++ renderCartItems storeData cart
    ++ "\n      </div>\n      <div class=\"cart-footer\">\n        <div class=\"cart-total\">\n          <span>Total:</span>\n          <span>"
    ++ formatPrice cart.total (storeCurrency storeData)
    ++ "</span>\n        </div>\n        <button \n          class=\"checkout-btn\" \n          "
    ++ (if cart.items.length = 0 then "disabled" else "")
    ++ "\n          onclick=\"handleCheckout()\"\n        >\n          Checkout\n        </button>\n      </div>\n    </div>\n  "

/-- `renderTheme(container)` from `main.js`: the full page the container
is filled with after a successful load. -/
def renderTheme (storeData : Store) (products : List Product)
    (categories : List Category) (promotions : List Promotion) (cart : Cart)
    (currentCategory : String) (now : Nat) : String :=
  "\n    " ++ renderHeader storeData
    ++ "\n    " ++ renderNavigation categories currentCategory
    ++ "\n    <main>\n      " ++ renderPromotions promotions
    ++ "\n      " ++ renderProducts storeData now products currentCategory
    ++ "\n    </main>\n    " ++ renderFooter storeData
    ++ "\n    " ++ renderCart storeData cart
    ++ "\n  "

/-- `showError(container, message)` from `main.js`: the full-page error
view with a Retry button (`onclick="location.reload()"`). -/
def showErrorHtml (message : String) : String :=
  "\n    <div class=\"error\">\n      <h2>Error</h2>\n      <p>" ++ escapeHtml message
    ++ "</p>\n      <button onclick=\"location.reload()\" style=\"margin-top: 1rem; padding: 0.5rem 1rem; background: var(--primary-color); color: white; border: none; border-radius: 8px; cursor: pointer;\">\n        Retry\n      </button>\n    </div>\n  "

/-! ## Initialization controller (`loadStoreData` in `main.js`)

The four API promises are embedded as `Except String _` outcomes; the
`document.title` assignment and the optional `window.CustomAPI` hook are
browser effects outside the claims and are not part of the state. -/

/-- What the container ends up showing after `loadStoreData`. -/
inductive PageView where
  | content (html : String)
  | failure (html : String)
deriving DecidableEq, Repr

/-- `loadStoreData(container)` from `main.js`: a single parallel fetch
(`Promise.all`) of store, products, categories, promotions, with the
promotions promise absorbed by `.catch(() => [])`; any other rejection
reaches the surrounding `try`/`catch`, which calls
`showError(container, 'Failed to load store data. Please try again later.')`.
On success the initial cart is empty and `currentCategory` is `"all"`. -/
def loadStoreData (now : Nat) (storeR : Except String Store)
    (productsR : Except String (List Product))
    (categoriesR : Except String (List Category))
    (promotionsR : Except String (List Promotion)) : PageView :=
  let promotionsData :=
    match promotionsR with
    | .ok l => l
    | .error _ => []
  match storeR, productsR, categoriesR with
  | .ok store, .ok products, .ok categories =>
    .content (renderTheme store products categories promotionsData initialCart "all" now)
  | _, _, _ =>
    .failure (showErrorHtml "Failed to load store data. Please try again later.")

/-! ## Cart & checkout state manager (`main.js` handlers)

Each handler is a transition function: the rejection/resolution of the
API promise it awaits is the `apiResult : Except String Cart` argument;
`apiPresent` is whether the module-level `api` reference is set (the
`if (!api) ... return` guard); `buttonPresent` is whether the defensive
DOM re-query for the triggering control finds it. -/

/-- The observable final state of the control a handler touches. -/
structure UIButton where
  disabled : Bool
  label : String
deriving DecidableEq, Repr

/-- The observable outcome of one cart-mutating handler call: the cart
value after the call, the API call issued (product id and quantity, if
any), the `alert` message shown (if any), and the final state the handler
leaves the triggering control in (`none` when it never touches one). -/
structure CartMutationOutcome where
  cart : Cart
  apiCall : Option (String × Int)
  alertMsg : Option String
  buttonFinal : Option UIButton
deriving DecidableEq, Repr

/-- `addToCart(productId)` from `main.js`: disables the button and sets it
to "Adding..." for the duration, awaits `api.addToCart(productId, 1)`;
on success replaces `cart` wholesale with the response; on rejection the
`catch` block leaves `cart` untouched, shows
`alert('Failed to add item to cart. Please try again.')`, and in both
branches re-enables the button with its "Add to Cart" label. -/
def addToCart (apiPresent : Bool) (buttonPresent : Bool) (cart : Cart)
    (productId : String) (apiResult : Except String Cart) : CartMutationOutcome :=
  if !apiPresent then ⟨cart, none, none, none⟩
  else
    match apiResult with
    | .ok newCart =>
      ⟨newCart, some (productId, 1), none,
        if buttonPresent then some ⟨false, "Add to Cart"⟩ else none⟩
    | .error _ =>
      ⟨cart, some (productId, 1), some "Failed to add item to cart. Please try again.",
        if buttonPresent then some ⟨false, "Add to Cart"⟩ else none⟩

/-- `updateCartQuantity(productId, newQuantity)` from `main.js`: after the
`api` guard, `if (newQuantity <= 0) ... return` is a documented no-op (the
removal path is acknowledged as missing); otherwise it awaits
`api.addToCart(productId, newQuantity)` and replaces `cart` on success,
or alerts `'Failed to update cart. Please try again.'` on rejection. -/
def updateCartQuantity (apiPresent : Bool) (cart : Cart) (productId : String)
    (newQuantity : Int) (apiResult : Except String Cart) : CartMutationOutcome :=
  if !apiPresent then ⟨cart, none, none, none⟩
  else if newQuantity ≤ 0 then ⟨cart, none, none, none⟩
  else
    match apiResult with
    | .ok newCart => ⟨newCart, some (productId, newQuantity), none, none⟩
    | .error _ =>
      ⟨cart, some (productId, newQuantity),
        some "Failed to update cart. Please try again.", none⟩

/-- The observable outcome of `handleCheckout()`: whether `api.checkout`
was invoked, the `alert` message (if any), and whether the checkout modal
was opened. -/
structure CheckoutOutcome where
  checkoutApiCalled : Bool
  alertMsg : Option String
  modalShown : Bool
deriving DecidableEq, Repr

/-- `handleCheckout()` from `main.js`: with no `api` reference it logs to
the console and returns (no alert); with an empty cart it shows
`alert('Your cart is empty')` and returns; otherwise it opens the
checkout modal via `showCheckoutModal()`. It never calls `api.checkout`
itself — only the later `submitCheckout` form handler does. -/
def handleCheckout (apiPresent : Bool) (cart : Cart) : CheckoutOutcome :=
  if !apiPresent then ⟨false, none, false⟩
  else if cart.items.length = 0 then ⟨false, some "Your cart is empty", false⟩
  else ⟨false, none, true⟩

/-! ## Store API client (`api-client.js`) -/

/-- The `filters` object of `StoreAPIClient.getProducts(filters = {})`:
`none` models an absent (`undefined`) key. -/
structure ProductFilters where
  category : Option String
  search : Option String
  min_price : Option Int
  max_price : Option Int
  in_stock : Option Bool
deriving DecidableEq, Repr

/-- The `URLSearchParams` built by `getProducts`: `category`, `search`,
`min_price` and `max_price` are appended under `if (filters.x)` (JS
truthiness, so `""` and `0` are skipped), while `in_stock` is appended
under `if (filters.in_stock !== undefined)` (so `false` is kept). -/
def getProductsParams (filters : ProductFilters) : List (String × String) :=
  (if jsStrTruthy filters.category then [("category", filters.category.getD "")] else [])
  ++ (if jsStrTruthy filters.search then [("search", filters.search.getD "")] else [])
  ++ (if jsNumTruthy filters.min_price then
        [("min_price", toString (filters.min_price.getD 0))] else [])
  ++ (if jsNumTruthy filters.max_price then
        [("max_price", toString (filters.max_price.getD 0))] else [])
  ++ (match filters.in_stock with
      | some b => [("in_stock", toString b)]
      | none => [])

/-- The keys of the query parameters `getProducts` sends. -/
def paramKeys (filters : ProductFilters) : List String :=
  (getProductsParams filters).map Prod.fst

/-! ## Custom API request helper (`custom-api.js`) -/

/-- The shape of the `CustomAPIConfig` object. -/
structure APIRequestConfig where
  baseUrl : String
  apiKey : Option String
  timeout : Nat
deriving DecidableEq, Repr

/-- The `CustomAPIConfig` constant of `custom-api.js`: default timeout
10000 ms, no API key configured. -/
def CustomAPIConfig : APIRequestConfig :=
  ⟨"https://your-api.example.com/api", none, 10000⟩

/-- The result of `response.json()` as `customAPIRequest` consumes it:
only the `message` field is ever read (`none` models a parsed value with
no usable `message`, e.g. the field absent). -/
structure JsonBody where
  message : Option String
deriving DecidableEq, Repr

/-- A settled `fetch` response: `ok` is the 2xx flag, `parsedBody = none`
models `response.json()` rejecting (unparsable body). -/
structure HttpResponse where
  ok : Bool
  status : Nat
  statusText : String
  parsedBody : Option JsonBody
deriving DecidableEq, Repr

/-- How the `Promise.race([fetch(url, config), timeoutPromise])` of
`customAPIRequest` settles: the fetch responds first, the fetch rejects
first (network error), or the `setTimeout` timer fires first — the latter
exactly when the network call does not complete within
`CustomAPIConfig.timeout` milliseconds. -/
inductive RaceOutcome where
  | fetched (r : HttpResponse)
  | fetchFailed (msg : String)
  | timedOut
deriving DecidableEq, Repr

/-- The `HTTP ${response.status}: ${response.statusText}` fallback
message of `customAPIRequest`. -/
def httpFallbackMessage (status : Nat) (statusText : String) : String :=
  "HTTP " ++ toString status ++ ": " ++ statusText

/-- The message `customAPIRequest` throws for a non-2xx response:
`errorData` is the parsed error body, or `{ message: response.statusText }`
when parsing fails; the thrown message is
`errorData.message || 'HTTP ${status}: ${statusText}'` (JS `||`: an empty
or absent `message` falls back). -/
def nonOkMessage (r : HttpResponse) : String :=
  let errorDataMessage :=
    match r.parsedBody with
    | some b => b.message.getD ""
    | none => r.statusText
  if errorDataMessage = "" then httpFallbackMessage r.status r.statusText
  else errorDataMessage

/-- Placeholder for the engine-generated message of `response.json()`
rejecting on a 2xx response; no claim depends on its text. -/
def jsonParseFailureMsg : String := "SyntaxError: unexpected JSON input"

/-- `customAPIRequest(endpoint, options)` from `custom-api.js`, as a
function of how the race settles: rejection is `Except.error` carrying
the thrown error's message (the code throws plain `Error`s, distinguished
only by message). Timer first → `new Error('Request timeout')`; fetch
rejection is rethrown; non-2xx → `nonOkMessage`; 2xx → the parsed body. -/
def customAPIRequest (outcome : RaceOutcome) : Except String JsonBody :=
  match outcome with
  | .timedOut => .error "Request timeout"
  | .fetchFailed msg => .error msg
  | .fetched r =>
    if r.ok then
      match r.parsedBody with
      | some b => .ok b
      | none => .error jsonParseFailureMsg
    else .error (nonOkMessage r)

/-! ## Helper lemmas and sample values -/

/-- `String.append` concatenates the underlying character lists. -/
theorem dataAppend (a b : String) : (a ++ b).data = a.data ++ b.data := by
  cases a
  cases b
  rfl

/-- A middle factor of a three-part string concatenation occurs, character
for character, inside the whole. -/
theorem infixMiddle (a m b : String) : m.data <:+: (a ++ m ++ b).data :=
  ⟨a.data, b.data, by rw [dataAppend, dataAppend]⟩

/-- String concatenation is associative. -/
theorem appendAssocStr (a b c : String) : a ++ b ++ c = a ++ (b ++ c) := by
  cases a with
  | mk la =>
  cases b with
  | mk lb =>
  cases c with
  | mk lc =>
  show String.mk (la ++ lb ++ lc) = String.mk (la ++ (lb ++ lc))
  rw [List.append_assoc]

/-- An occurrence inside an occurrence is an occurrence. -/
theorem infixTrans {x y z : List Char} (h1 : x <:+: y) (h2 : y <:+: z) :
    x <:+: z := by
  obtain ⟨c, d, hy⟩ := h1
  obtain ⟨a, b, hz⟩ := h2
  exact ⟨a ++ c, d ++ b, by rw [← hz, ← hy]; simp [List.append_assoc]⟩

/-- A string occurs in itself. -/
theorem infixSelf (m : String) : m.data <:+: m.data :=
  ⟨[], [], by simp⟩

/-- Anything occurring in the middle factor of a factored string occurs
in the whole. -/
theorem infix_of_factor {w : String} (pre m post : String)
    (hw : w = pre ++ m ++ post) {x : List Char} (hx : x <:+: m.data) :
    x <:+: w.data := by
  rw [hw]
  exact infixTrans hx (infixMiddle pre m post)

/-- Anything occurring in the right factor of a two-factor string occurs
in the whole. -/
theorem infix_of_factor_right {w : String} (pre m : String) (hw : w = pre ++ m)
    {x : List Char} (hx : x <:+: m.data) : x <:+: w.data := by
  rw [hw, dataAppend]
  obtain ⟨a, b, hm⟩ := hx
  exact ⟨pre.data ++ a, b, by rw [← hm]; simp [List.append_assoc]⟩

/-- The image of a list member occurs in `concatMap`'s output. -/
theorem concatMapFactor {α : Type} (f : α → String) {l : List α} {a : α}
    (ha : a ∈ l) : (f a).data <:+: (concatMap f l).data := by
  induction l with
  | nil => cases ha
  | cons x xs ih =>
    rcases List.mem_cons.mp ha with h | h
    · subst h
      show (f a).data <:+: (f a ++ concatMap f xs).data
      rw [dataAppend]
      exact ⟨[], (concatMap f xs).data, by simp⟩
    · obtain ⟨u, v, huv⟩ := ih h
      show (f a).data <:+: (f x ++ concatMap f xs).data
      rw [dataAppend]
      exact ⟨(f x).data ++ u, v, by rw [← huv]; simp [List.append_assoc]⟩

/-- Character lists produced by `escapeHtml` decompose into safe blocks:
ordinary characters other than `&`, `<`, `>`, and the three entities
`&amp;`, `&lt;`, `&gt;` — so the escaped text contains no raw `<` or `>`
and every `&` in it starts an entity. -/
inductive EntityClean : List Char → Prop
  | nil : EntityClean []
  | chr (c : Char) (h1 : c ≠ '&') (h2 : c ≠ '<') (h3 : c ≠ '>') {l : List Char} :
      EntityClean l → EntityClean (c :: l)
  | amp {l : List Char} : EntityClean l → EntityClean ('&' :: 'a' :: 'm' :: 'p' :: ';' :: l)
  | ltEnt {l : List Char} : EntityClean l → EntityClean ('&' :: 'l' :: 't' :: ';' :: l)
  | gtEnt {l : List Char} : EntityClean l → EntityClean ('&' :: 'g' :: 't' :: ';' :: l)

/-- Every output of `escList` is entity-clean. -/
theorem escList_entityClean : ∀ l : List Char, EntityClean (escList l) := by
  intro l
  induction l with
  | nil => exact EntityClean.nil
  | cons c cs ih =>
    show EntityClean (escChar c ++ escList cs)
    by_cases h1 : c = '&'
    · simp [escChar, h1]
      exact EntityClean.amp ih
    · by_cases h2 : c = '<'
      · simp [escChar, h1, h2]
        exact EntityClean.ltEnt ih
      · by_cases h3 : c = '>'
        · simp [escChar, h1, h2, h3]
          exact EntityClean.gtEnt ih
        · simp [escChar, h1, h2, h3]
          exact EntityClean.chr c h1 h2 h3 ih

/-- The store name is inserted into `renderHeader`'s `h1` text through
`escapeHtml`. -/
theorem renderHeader_h1 (storeData : Store) :
    ("<h1>" ++ escapeHtml (jsOrStr storeData.name "Store") ++ "</h1>").data
      <:+: (renderHeader storeData).data := by
  refine infix_of_factor
      ("\n    <header>\n      " ++ headerLogo storeData ++ "\n      "
        ++ headerInitialsLogo storeData ++ "\n      ")
      ("<h1>" ++ escapeHtml (jsOrStr storeData.name "Store") ++ "</h1>")
      ("\n      " ++ headerDescriptionBlock storeData ++ "\n      "
        ++ headerSocialLinks storeData ++ "\n    </header>\n  ")
      ?_ (infixSelf _)
  unfold renderHeader
  rw [show ("\n      <h1>" : String) = "\n      " ++ "<h1>" by rfl,
      show ("</h1>\n      " : String) = "</h1>" ++ "\n      " by rfl]
  simp only [appendAssocStr]

/-- A truthy store description is inserted into `renderHeader`'s
description paragraph through `escapeHtml`. -/
theorem renderHeader_description (storeData : Store)
    (h : jsStrTruthy storeData.description = true) :
    ("<p class=\"description\">" ++ escapeHtml (storeData.description.getD "")
        ++ "</p>").data
      <:+: (renderHeader storeData).data := by
  refine infix_of_factor
      ("\n    <header>\n      " ++ headerLogo storeData ++ "\n      "
        ++ headerInitialsLogo storeData ++ "\n      <h1>"
        ++ escapeHtml (jsOrStr storeData.name "Store") ++ "</h1>\n      ")
      (headerDescriptionBlock storeData)
      ("\n      " ++ headerSocialLinks storeData ++ "\n    </header>\n  ")
      ?_ ?_
  · unfold renderHeader
    simp only [appendAssocStr]
  · have hb : headerDescriptionBlock storeData
        = "<p class=\"description\">" ++ escapeHtml (storeData.description.getD "")
            ++ "</p>" := by
      simp [headerDescriptionBlock, h]
    rw [hb]

/-- An enabled social link's label is inserted into `renderHeader`'s
anchor text through `escapeHtml`. -/
theorem renderHeader_socialLink (storeData : Store) (link : SocialLink)
    (hmem : link ∈ storeData.social_links) (hen : link.enabled = true) :
    ("class=\"social-link\">" ++ escapeHtml link.platform ++ "</a>").data
      <:+: (renderHeader storeData).data := by
  have hlen : storeData.social_links.length > 0 :=
    List.length_pos.mpr (List.ne_nil_of_mem hmem)
  have hfilter : link ∈ storeData.social_links.filter (·.enabled) :=
    List.mem_filter.mpr ⟨hmem, hen⟩
  have h2 : ("class=\"social-link\">" ++ escapeHtml link.platform ++ "</a>").data
      <:+: (socialLinkAnchor link).data := by
    refine infix_of_factor_right
        ("<a href=\"" ++ escapeHtml link.url
          ++ "\" target=\"_blank\" rel=\"noopener noreferrer\" ")
        ("class=\"social-link\">" ++ escapeHtml link.platform ++ "</a>")
        ?_ (infixSelf _)
    unfold socialLinkAnchor
    rw [show ("\" target=\"_blank\" rel=\"noopener noreferrer\" class=\"social-link\">" : String)
          = "\" target=\"_blank\" rel=\"noopener noreferrer\" " ++ "class=\"social-link\">" by rfl]
    simp only [appendAssocStr]
  have hblock : headerSocialLinks storeData
      = "<div class=\"social-links\">\n        "
        ++ concatMap socialLinkAnchor (storeData.social_links.filter (·.enabled))
        ++ "\n       </div>" := by
    unfold headerSocialLinks
    rw [if_pos hlen]
  have h3 : (socialLinkAnchor link).data <:+: (headerSocialLinks storeData).data :=
    infix_of_factor _ _ _ hblock (concatMapFactor socialLinkAnchor hfilter)
  have h4 : (headerSocialLinks storeData).data <:+: (renderHeader storeData).data := by
    refine infix_of_factor
        ("\n    <header>\n      " ++ headerLogo storeData ++ "\n      "
          ++ headerInitialsLogo storeData ++ "\n      <h1>"
          ++ escapeHtml (jsOrStr storeData.name "Store") ++ "</h1>\n      "
          ++ headerDescriptionBlock storeData ++ "\n      ")
        (headerSocialLinks storeData)
        ("\n    </header>\n  ")
        ?_ (infixSelf _)
    unfold renderHeader
    simp only [appendAssocStr]
  exact infixTrans h2 (infixTrans h3 h4)

/-- The tail of the `renderProduct` card after the description block,
shared by the factorizations below. -/
def productCardTail (storeData : Store) (product : Product) : String :=
  "\n        " ++ productTagsBlock product
    ++ "\n        <div class=\"product-price\">"
    ++ formatPrice product.price (storeCurrency storeData)
    ++ "</div>\n        <button \n          class=\"add-to-cart-btn\" \n          "
    ++ availabilityAttr product ++ "\n          onclick=\"addToCart('" ++ product.id
    ++ "')\"\n          data-product-id=\"" ++ product.id
    ++ "\"\n        >\n          " ++ buttonLabel product
    ++ "\n        </button>\n      </div>\n    </div>\n  "

/-- `renderProduct` factored around its description block. -/
theorem renderProduct_factored (storeData : Store) (now : Nat) (product : Product) :
    renderProduct storeData now product
      = ("\n    <div class=\"product\">\n      " ++ productImage now product
          ++ "\n      <div class=\"product-info\">\n        <h3 class=\"product-name\">"
          ++ escapeHtml product.name ++ "</h3>\n        ")
        ++ productDescriptionBlock product
        ++ productCardTail storeData product := by
  unfold renderProduct productCardTail
  simp only [appendAssocStr]

/-- The product name is inserted into `renderProduct`'s `h3` text through
`escapeHtml`. -/
theorem renderProduct_name (storeData : Store) (now : Nat) (product : Product) :
    ("<h3 class=\"product-name\">" ++ escapeHtml product.name ++ "</h3>").data
      <:+: (renderProduct storeData now product).data := by
  refine infix_of_factor
      ("\n    <div class=\"product\">\n      " ++ productImage now product
        ++ "\n      <div class=\"product-info\">\n        ")
      ("<h3 class=\"product-name\">" ++ escapeHtml product.name ++ "</h3>")
      ("\n        " ++ productDescriptionBlock product ++ productCardTail storeData product)
      ?_ (infixSelf _)
  rw [renderProduct_factored]
  rw [show ("\n      <div class=\"product-info\">\n        <h3 class=\"product-name\">" : String)
        = "\n      <div class=\"product-info\">\n        " ++ "<h3 class=\"product-name\">" by rfl,
      show ("</h3>\n        " : String) = "</h3>" ++ "\n        " by rfl]
  simp only [appendAssocStr]

/-- A truthy product description is inserted into `renderProduct`'s
description paragraph through `escapeHtml`. -/
theorem renderProduct_description (storeData : Store) (now : Nat) (product : Product)
    (h : jsStrTruthy product.description = true) :
    ("<p class=\"product-description\">" ++ escapeHtml (product.description.getD "")
        ++ "</p>").data
      <:+: (renderProduct storeData now product).data := by
  refine infix_of_factor
      ("\n    <div class=\"product\">\n      " ++ productImage now product
        ++ "\n      <div class=\"product-info\">\n        <h3 class=\"product-name\">"
        ++ escapeHtml product.name ++ "</h3>\n        ")
      (productDescriptionBlock product)
      (productCardTail storeData product)
      (renderProduct_factored storeData now product) ?_
  have hb : productDescriptionBlock product
      = "<p class=\"product-description\">" ++ escapeHtml (product.description.getD "")
          ++ "</p>" := by
    simp [productDescriptionBlock, h]
  rw [hb]

/-- Every tag of a product is inserted into `renderProduct`'s tag chips
through `escapeHtml`. -/
theorem renderProduct_tag (storeData : Store) (now : Nat) (product : Product)
    (tag : String) (htag : tag ∈ product.tags) :
    ("<span class=\"tag\">" ++ escapeHtml tag ++ "</span>").data
      <:+: (renderProduct storeData now product).data := by
  have hlen : product.tags.length > 0 := List.length_pos.mpr (List.ne_nil_of_mem htag)
  have hblock : productTagsBlock product
      = "<div class=\"product-tags\">\n        "
        ++ concatMap tagSpan product.tags
        ++ "\n       </div>" := by
    unfold productTagsBlock
    rw [if_pos hlen]
  have h1 : ("<span class=\"tag\">" ++ escapeHtml tag ++ "</span>").data
      <:+: (productTagsBlock product).data :=
    infix_of_factor _ _ _ hblock (concatMapFactor tagSpan htag)
  have h2 : (productTagsBlock product).data
      <:+: (renderProduct storeData now product).data := by
    refine infix_of_factor
        ("\n    <div class=\"product\">\n      " ++ productImage now product
          ++ "\n      <div class=\"product-info\">\n        <h3 class=\"product-name\">"
          ++ escapeHtml product.name ++ "</h3>\n        "
          ++ productDescriptionBlock product ++ "\n        ")
        (productTagsBlock product)
        ("\n        <div class=\"product-price\">"
          ++ formatPrice product.price (storeCurrency storeData)
          ++ "</div>\n        <button \n          class=\"add-to-cart-btn\" \n          "
          ++ availabilityAttr product ++ "\n          onclick=\"addToCart('" ++ product.id
          ++ "')\"\n          data-product-id=\"" ++ product.id
          ++ "\"\n        >\n          " ++ buttonLabel product
          ++ "\n        </button>\n      </div>\n    </div>\n  ")
        ?_ (infixSelf _)
    unfold renderProduct
    simp only [appendAssocStr]
  exact infixTrans h1 h2

/-- Every category's name is inserted into its `renderNavigation` button
text through `escapeHtml`. -/
theorem renderNavigation_category (categories : List Category)
    (currentCategory : String) (cat : Category) (hmem : cat ∈ categories) :
    (">\n            " ++ escapeHtml cat.name ++ " (").data
      <:+: (renderNavigation categories currentCategory).data := by
  have hlen : ¬ categories.length = 0 := by
    simpa using List.ne_nil_of_mem hmem
  have h1 : (">\n            " ++ escapeHtml cat.name ++ " (").data
      <:+: (categoryButton currentCategory cat).data := by
    refine infix_of_factor
        ("\n          <button class=\"category-btn "
          ++ (if currentCategory = cat.name then "active" else "")
          ++ "\" data-category=\"" ++ escapeHtml cat.name ++ "\"")
        (">\n            " ++ escapeHtml cat.name ++ " (")
        (toString (cat.product_count.getD 0) ++ ")\n          </button>\n        ")
        ?_ (infixSelf _)
    unfold categoryButton
    rw [show ("\">\n            " : String) = "\"" ++ ">\n            " by rfl]
    simp only [appendAssocStr]
  have h2 : (categoryButton currentCategory cat).data
      <:+: (renderNavigation categories currentCategory).data := by
    have hnav : renderNavigation categories currentCategory
        = ("\n    <nav>\n      <div class=\"category-buttons\">\n        <button class=\"category-btn "
            ++ (if currentCategory = "all" then "active" else "")
            ++ "\" data-category=\"all\">\n          All\n        </button>\n        ")
          ++ concatMap (categoryButton currentCategory) categories
          ++ ("\n      </div>\n    </nav>\n  ") := by
      unfold renderNavigation
      rw [if_neg hlen]
    exact infix_of_factor _ _ _ hnav
      (concatMapFactor (categoryButton currentCategory) hmem)
  exact infixTrans h1 h2

/-- Every cart item's denormalized product name is inserted into its
`renderCartItems` row through `escapeHtml`. -/
theorem renderCartItems_name (storeData : Store) (cart : Cart) (item : CartItem)
    (hmem : item ∈ cart.items) :
    ("<div class=\"cart-item-name\">" ++ escapeHtml item.product_name ++ "</div>").data
      <:+: (renderCartItems storeData cart).data := by
  have hlen : ¬ cart.items.length = 0 := by
    simpa using List.ne_nil_of_mem hmem
  have h1 : ("<div class=\"cart-item-name\">" ++ escapeHtml item.product_name
        ++ "</div>").data
      <:+: (cartItemRow storeData item).data := by
    refine infix_of_factor
        ("\n    <div class=\"cart-item\">\n      <div class=\"cart-item-info\">\n        ")
        ("<div class=\"cart-item-name\">" ++ escapeHtml item.product_name ++ "</div>")
        ("\n        <div class=\"cart-item-price\">"
          ++ formatPrice item.unit_price (storeCurrency storeData) ++ " × "
          ++ toString item.quantity
          ++ "</div>\n      </div>\n      <div class=\"cart-item-quantity\">\n        <button class=\"quantity-btn\" onclick=\"updateCartQuantity('"
          ++ item.product_id ++ "', " ++ toString (item.quantity - 1)
          ++ ")\">-</button>\n        <span>" ++ toString item.quantity
          ++ "</span>\n        <button class=\"quantity-btn\" onclick=\"updateCartQuantity('"
          ++ item.product_id ++ "', " ++ toString (item.quantity + 1)
          ++ ")\">+</button>\n      </div>\n    </div>\n  ")
        ?_ (infixSelf _)
    unfold cartItemRow
    rw [show ("\n    <div class=\"cart-item\">\n      <div class=\"cart-item-info\">\n        <div class=\"cart-item-name\">" : String)
          = "\n    <div class=\"cart-item\">\n      <div class=\"cart-item-info\">\n        "
            ++ "<div class=\"cart-item-name\">" by rfl,
        show ("</div>\n        <div class=\"cart-item-price\">" : String)
          = "</div>" ++ "\n        <div class=\"cart-item-price\">" by rfl]
    simp only [appendAssocStr]
  have hitems : renderCartItems storeData cart
      = concatMap (cartItemRow storeData) cart.items := by
    unfold renderCartItems
    rw [if_neg hlen]
  have h2 : (cartItemRow storeData item).data <:+: (renderCartItems storeData cart).data := by
    rw [hitems]
    exact concatMapFactor (cartItemRow storeData) hmem
  exact infixTrans h1 h2

/-- Every product kept by the category filter has its whole `renderProduct`
card inside the `renderProducts` grid. -/
theorem renderProducts_product (storeData : Store) (now : Nat)
    (products : List Product) (currentCategory : String) (product : Product)
    (hmem : product ∈ filteredProducts products currentCategory) :
    (renderProduct storeData now product).data
      <:+: (renderProducts storeData now products currentCategory).data := by
  have hlen : ¬ (filteredProducts products currentCategory).length = 0 := by
    simpa using List.ne_nil_of_mem hmem
  have hgrid : renderProducts storeData now products currentCategory
      = "\n    <div class=\"products\">\n      "
        ++ concatMap (renderProduct storeData now) (filteredProducts products currentCategory)
        ++ "\n    </div>\n  " := by
    unfold renderProducts
    rw [if_neg hlen]
  exact infix_of_factor _ _ _ hgrid
    (concatMapFactor (renderProduct storeData now) hmem)

/-- The one escaping exception among the listed fields: `renderProducts`
interpolates the selected category name raw — not through `escapeHtml` —
into its empty-state paragraph. -/
theorem renderProducts_emptyState_raw (storeData : Store) (now : Nat)
    (products : List Product) (currentCategory : String)
    (hemp : filteredProducts products currentCategory = [])
    (hcc : currentCategory ≠ "all") :
    ("<p>No products in the \"" ++ currentCategory ++ "\" category.</p>").data
      <:+: (renderProducts storeData now products currentCategory).data := by
  have hmsg : emptyStateMsg currentCategory
      = "No products in the \"" ++ currentCategory ++ "\" category." := by
    unfold emptyStateMsg
    rw [if_neg hcc]
  have hout : renderProducts storeData now products currentCategory
      = "\n      <div class=\"text-center\" style=\"padding: 3rem;\">\n        <h2>No products found</h2>\n        <p>"
        ++ emptyStateMsg currentCategory ++ "</p>\n      </div>\n    " := by
    unfold renderProducts
    rw [hemp]
    rfl
  refine infix_of_factor
      ("\n      <div class=\"text-center\" style=\"padding: 3rem;\">\n        <h2>No products found</h2>\n        ")
      ("<p>No products in the \"" ++ currentCategory ++ "\" category.</p>")
      ("\n      </div>\n    ")
      ?_ (infixSelf _)
  rw [hout, hmsg]
  rw [show ("\n      <div class=\"text-center\" style=\"padding: 3rem;\">\n        <h2>No products found</h2>\n        <p>" : String)
        = "\n      <div class=\"text-center\" style=\"padding: 3rem;\">\n        <h2>No products found</h2>\n        "
          ++ "<p>" by rfl,
      show ("</p>\n      </div>\n    " : String) = "</p>" ++ "\n      </div>\n    " by rfl,
      show ("<p>No products in the \"" : String) = "<p>" ++ "No products in the \"" by rfl,
      show ("\" category.</p>" : String) = "\" category." ++ "</p>" by rfl]
  simp only [appendAssocStr]

/-- A store whose name holds a double quote, used to exhibit the
unescaped-quote behaviour of the renderers. -/
def c1Store : Store :=
  ⟨some "A\"B", none, none, [], none, none, none, none⟩

/-! ## C1 -/

/-- C1, counterexample. Two listed-field values reach text positions raw.
Quote characters: `escapeHtml` (the DOM `textContent`/`innerHTML` round
trip) does not escape quotes, so the store name `A"B` reaches the `<h1>`
text of `renderHeader` with its raw `"` — the markup contains the verbatim
fragment `<h1>A"B</h1>`. And `&` as well: `renderProducts` interpolates
the selected category name raw (not through `escapeHtml`) into its
empty-state paragraph, so with category name `A&B` the markup contains the
verbatim fragment `<p>No products in the "A&B" category.</p>` with a raw
`&` in a text position, although `escapeHtml` would have produced
`A&amp;B`. -/
theorem C1_counterexample :
    "<h1>A\"B</h1>".data <:+: (renderHeader c1Store).data
    ∧ escapeHtml "A\"B" = "A\"B"
    ∧ "<p>No products in the \"A&B\" category.</p>".data
        <:+: (renderProducts c1Store 0 [] "A&B").data
    ∧ escapeHtml "A&B" = "A&amp;B" := by
  refine ⟨by decide, rfl, by decide, rfl⟩

/-- C1, as amended. Every listed Store/Product text field is inserted into
its text position through `escapeHtml`, with one exception. The clauses,
in order: (1) every `escapeHtml` output is entity-clean — no raw `<` or
`>`, and every `&` in it starts one of the entities `&amp;`, `&lt;`,
`&gt;` — though (2) quote characters pass through `escapeHtml` unescaped;
the insertions themselves: (3) the store name in `renderHeader`'s `h1`,
(4) the store description paragraph, (5) every enabled social link's
label, (6) the product name in `renderProduct`'s `h3`, (7) the product
description paragraph, (8) every product tag chip, (9) every category
name in its `renderNavigation` button, (10) every cart item's name in
`renderCartItems`, and (11) each kept product's whole card inside
`renderProducts` — all go through `escapeHtml`; but (12) the exception:
`renderProducts` interpolates the selected category name raw, without
`escapeHtml`, into its empty-state paragraph, so a category name
containing `<`, `>` or `&` appears unescaped there (and quotes appear raw
everywhere, per (2)). -/
theorem C1_theorem :
    (∀ s : String, EntityClean (escapeHtml s).data)
    ∧ escapeHtml "<&>\"" = "&lt;&amp;&gt;\""
    ∧ (∀ storeData : Store,
        ("<h1>" ++ escapeHtml (jsOrStr storeData.name "Store") ++ "</h1>").data
          <:+: (renderHeader storeData).data)
    ∧ (∀ storeData : Store, jsStrTruthy storeData.description = true →
        ("<p class=\"description\">" ++ escapeHtml (storeData.description.getD "")
            ++ "</p>").data
          <:+: (renderHeader storeData).data)
    ∧ (∀ (storeData : Store) (link : SocialLink),
        link ∈ storeData.social_links → link.enabled = true →
        ("class=\"social-link\">" ++ escapeHtml link.platform ++ "</a>").data
          <:+: (renderHeader storeData).data)
    ∧ (∀ (storeData : Store) (now : Nat) (product : Product),
        ("<h3 class=\"product-name\">" ++ escapeHtml product.name ++ "</h3>").data
          <:+: (renderProduct storeData now product).data)
    ∧ (∀ (storeData : Store) (now : Nat) (product : Product),
        jsStrTruthy product.description = true →
        ("<p class=\"product-description\">" ++ escapeHtml (product.description.getD "")
            ++ "</p>").data
          <:+: (renderProduct storeData now product).data)
    ∧ (∀ (storeData : Store) (now : Nat) (product : Product) (tag : String),
        tag ∈ product.tags →
        ("<span class=\"tag\">" ++ escapeHtml tag ++ "</span>").data
          <:+: (renderProduct storeData now product).data)
    ∧ (∀ (categories : List Category) (currentCategory : String) (cat : Category),
        cat ∈ categories →
        (">\n            " ++ escapeHtml cat.name ++ " (").data
          <:+: (renderNavigation categories currentCategory).data)
    ∧ (∀ (storeData : Store) (cart : Cart) (item : CartItem), item ∈ cart.items →
        ("<div class=\"cart-item-name\">" ++ escapeHtml item.product_name
            ++ "</div>").data
          <:+: (renderCartItems storeData cart).data)
    ∧ (∀ (storeData : Store) (now : Nat) (products : List Product)
        (currentCategory : String) (product : Product),
        product ∈ filteredProducts products currentCategory →
        (renderProduct storeData now product).data
          <:+: (renderProducts storeData now products currentCategory).data)
    ∧ (∀ (storeData : Store) (now : Nat) (products : List Product)
        (currentCategory : String),
        filteredProducts products currentCategory = [] → currentCategory ≠ "all" →
        ("<p>No products in the \"" ++ currentCategory ++ "\" category.</p>").data
          <:+: (renderProducts storeData now products currentCategory).data) := by
  refine ⟨?_, rfl, renderHeader_h1, renderHeader_description, renderHeader_socialLink,
    renderProduct_name, renderProduct_description, renderProduct_tag,
    renderNavigation_category, renderCartItems_name, renderProducts_product,
    renderProducts_emptyState_raw⟩
  intro s
  show EntityClean (escList s.data)
  exact escList_entityClean s.data

/-! ## C2 -/

/-- C2: for every cart state and product id, when the awaited
`api.addToCart` promise rejects, the handler leaves the cart exactly as it
was, surfaces the visible `alert('Failed to add item to cart. Please try
again.')`, and leaves the triggering control re-enabled with its
"Add to Cart" label. -/
theorem C2_theorem :
    ∀ (cart : Cart) (productId msg : String),
      (addToCart true true cart productId (.error msg)).cart = cart
      ∧ (addToCart true true cart productId (.error msg)).alertMsg
          = some "Failed to add item to cart. Please try again."
      ∧ (addToCart true true cart productId (.error msg)).buttonFinal
          = some ⟨false, "Add to Cart"⟩ := by
  intro cart productId msg
  exact ⟨rfl, rfl, rfl⟩

/-! ## C3 -/

/-- C3, counterexample. The claim quantifies over every session state with
an empty cart and asserts a user-visible message is shown; in the session
state where the module-level `api` reference is unset (its initial value),
`handleCheckout()` returns after only `console.error` — no `alert` — so no
user-visible message is shown (though, as claimed, no checkout HTTP call
is issued either). -/
theorem C3_counterexample :
    (handleCheckout false initialCart).alertMsg = none
    ∧ (handleCheckout false initialCart).checkoutApiCalled = false
    ∧ initialCart.items = [] := by
  exact ⟨rfl, rfl, rfl⟩

/-- C3, as amended: for every session state with an empty cart,
`handleCheckout()` never invokes the API client's checkout operation (it
at most opens the data-collection modal, and with an empty cart not even
that); and whenever the `api` reference is set — every state reachable
through a successful `initTheme` — it also shows the user-visible
`alert('Your cart is empty')` and returns. -/
theorem C3_theorem :
    ∀ (apiPresent : Bool) (cart : Cart),
      cart.items = [] →
        (handleCheckout apiPresent cart).checkoutApiCalled = false
        ∧ (handleCheckout apiPresent cart).modalShown = false
        ∧ (handleCheckout true cart).alertMsg = some "Your cart is empty" := by
  intro apiPresent cart h
  cases apiPresent <;> simp [handleCheckout, h]

/-- C3, witness: the amended theorem applied to the initial (empty) cart
with the API client present. -/
theorem C3_witness :
    (handleCheckout true initialCart).checkoutApiCalled = false
    ∧ (handleCheckout true initialCart).alertMsg = some "Your cart is empty" := by
  have h := C3_theorem true initialCart rfl
  exact ⟨h.1, h.2.2⟩

/-! ## C4 -/

/-- A filters object carrying `min_price: 0` and nothing else. -/
def c4Filters : ProductFilters := ⟨none, none, some 0, none, none⟩

/-- C4, counterexample. With `min_price` present and equal to `0`,
`getProducts` appends no query parameter at all: `if (filters.min_price)`
uses JS truthiness, so the present-but-zero value is treated exactly like
omission, contradicting the claim's "presence with a zero or false value
is never treated as omission". -/
theorem C4_counterexample :
    getProductsParams c4Filters = [] ∧ c4Filters.min_price = some 0 := by
  exact ⟨rfl, rfl⟩

/-- Which keys `getProducts` sends: each key appears exactly when its
guard in the source holds. -/
theorem mem_paramKeys (f : ProductFilters) (k : String) :
    k ∈ paramKeys f ↔
      (jsStrTruthy f.category = true ∧ k = "category")
      ∨ (jsStrTruthy f.search = true ∧ k = "search")
      ∨ (jsNumTruthy f.min_price = true ∧ k = "min_price")
      ∨ (jsNumTruthy f.max_price = true ∧ k = "max_price")
      ∨ (f.in_stock.isSome = true ∧ k = "in_stock") := by
  rcases f with ⟨c, s, mn, mx, st⟩
  unfold paramKeys getProductsParams
  cases st <;> split_ifs with h1 h2 h3 h4 <;> simp_all [List.mem_append]

/-- JS truthiness of an optional string, unfolded. -/
theorem jsStrTruthy_eq_true (o : Option String) :
    jsStrTruthy o = true ↔ ∃ s, o = some s ∧ s ≠ "" := by
  cases o <;> simp [jsStrTruthy]

/-- JS truthiness of an optional number, unfolded. -/
theorem jsNumTruthy_eq_true (o : Option Int) :
    jsNumTruthy o = true ↔ ∃ v, o = some v ∧ v ≠ 0 := by
  cases o <;> simp [jsNumTruthy]

/-- C4, as amended: `category` and `search` are encoded exactly when
present and non-empty, `min_price` and `max_price` exactly when present
and non-zero (JS truthiness: `""` and `0` are treated like omission), and
`in_stock` exactly when present — including `false`, since its guard is
`!== undefined`. -/
theorem C4_theorem :
    ∀ f : ProductFilters,
      ("category" ∈ paramKeys f ↔ ∃ c, f.category = some c ∧ c ≠ "")
      ∧ ("search" ∈ paramKeys f ↔ ∃ s, f.search = some s ∧ s ≠ "")
      ∧ ("min_price" ∈ paramKeys f ↔ ∃ v, f.min_price = some v ∧ v ≠ 0)
      ∧ ("max_price" ∈ paramKeys f ↔ ∃ v, f.max_price = some v ∧ v ≠ 0)
      ∧ ("in_stock" ∈ paramKeys f ↔ f.in_stock.isSome) := by
  intro f
  refine ⟨?_, ?_, ?_, ?_, ?_⟩ <;>
    simp [mem_paramKeys, jsStrTruthy_eq_true, jsNumTruthy_eq_true]

/-! ## C5 -/

/-- C5: `renderProducts` keeps exactly the products whose `category` is an
exact (case-sensitive) match of `currentCategory`, all of them under the
`"all"` sentinel; and when the filtered list is empty the output contains
the empty-state message, which says the store has no products under
`"all"` and names the category otherwise. -/
theorem C5_theorem :
    ∀ (storeData : Store) (now : Nat) (products : List Product)
      (currentCategory : String) (p : Product),
      (p ∈ filteredProducts products currentCategory ↔
        p ∈ products ∧ (currentCategory = "all" ∨ p.category = currentCategory))
      ∧ (filteredProducts products currentCategory = [] →
          (emptyStateMsg currentCategory).data <:+:
            (renderProducts storeData now products currentCategory).data)
      ∧ emptyStateMsg "all" = "This store has no products yet."
      ∧ (currentCategory ≠ "all" →
          emptyStateMsg currentCategory =
            "No products in the \"" ++ currentCategory ++ "\" category.") := by
  intro storeData now products currentCategory p
  refine ⟨?_, ?_, rfl, ?_⟩
  · unfold filteredProducts
    by_cases h : currentCategory = "all"
    · simp [h]
    · simp [h, List.mem_filter]
  · intro hemp
    unfold renderProducts
    rw [hemp]
    exact infixMiddle _ _ _
  · intro h
    simp [emptyStateMsg, h]

/-- A sample store with every optional field absent. -/
def plainStore : Store := ⟨none, none, none, [], none, none, none, none⟩

/-- A sample available product. -/
def c1Product : Product := ⟨"p1", "Coffee", none, 3, "Drinks", none, none, true, []⟩

/-- C5, witness: on an empty product list and the non-sentinel category
`"Drinks"`, the rendered output contains the category-naming empty-state
message. -/
theorem C5_witness :
    (emptyStateMsg "Drinks").data <:+: (renderProducts plainStore 0 [] "Drinks").data
    ∧ emptyStateMsg "Drinks" = "No products in the \"Drinks\" category." := by
  have h := C5_theorem plainStore 0 [] "Drinks" c1Product
  exact ⟨h.2.1 rfl, h.2.2.2 (by decide)⟩

/-! ## C6 -/

/-- C6: with a non-positive target quantity, `updateCartQuantity` is a
no-op — no API call, cart unchanged, no alert, the control untouched —
whether or not the `api` reference is set; with a positive target quantity
(and the `api` reference set, as in any initialized session) it re-issues
the add-style call `api.addToCart(productId, newQuantity)` with the new
absolute quantity. -/
theorem C6_theorem :
    ∀ (apiPresent : Bool) (cart : Cart) (productId : String) (newQuantity : Int)
      (apiResult : Except String Cart),
      (newQuantity ≤ 0 →
        updateCartQuantity apiPresent cart productId newQuantity apiResult
          = ⟨cart, none, none, none⟩)
      ∧ (0 < newQuantity →
        (updateCartQuantity true cart productId newQuantity apiResult).apiCall
          = some (productId, newQuantity)) := by
  intro apiPresent cart productId newQuantity apiResult
  constructor
  · intro hq
    cases apiPresent
    · rfl
    · simp [updateCartQuantity, hq]
  · intro hq
    have hq' : ¬ newQuantity ≤ 0 := not_le.mpr hq
    cases apiResult <;> simp [updateCartQuantity, hq']

/-- C6, witness: the theorem applied at quantity `0` (no-op) and at
quantity `2` (re-issued call with absolute quantity 2). -/
theorem C6_witness :
    updateCartQuantity true initialCart "p1" 0 (.ok initialCart)
      = ⟨initialCart, none, none, none⟩
    ∧ (updateCartQuantity true initialCart "p1" 2 (.ok initialCart)).apiCall
        = some ("p1", 2) := by
  exact ⟨(C6_theorem true initialCart "p1" 0 (.ok initialCart)).1 (by decide),
    (C6_theorem true initialCart "p1" 2 (.ok initialCart)).2 (by decide)⟩

/-! ## C7 -/

/-- C7: in the initial parallel fetch, a `getPromotions()` rejection is
absorbed to an empty promotions list and the page content still renders —
identically to a load that returned no promotions, with an empty
promotions section and no error view — while a rejection of `getStore()`,
`getProducts()` or `getCategories()` is fatal: whatever the other results,
the container shows the full-page error view, whose markup carries the
Retry control. -/
theorem C7_theorem :
    ∀ (store : Store) (products : List Product) (categories : List Category)
      (e : String) (now : Nat),
      loadStoreData now (.ok store) (.ok products) (.ok categories) (.error e)
        = .content (renderTheme store products categories [] initialCart "all" now)
      ∧ renderPromotions [] = ""
      ∧ (∀ (pR : Except String (List Product)) (cR : Except String (List Category))
          (prR : Except String (List Promotion)),
          loadStoreData now (.error e) pR cR prR
            = .failure (showErrorHtml "Failed to load store data. Please try again later."))
      ∧ (∀ (sR : Except String Store) (cR : Except String (List Category))
          (prR : Except String (List Promotion)),
          loadStoreData now sR (.error e) cR prR
            = .failure (showErrorHtml "Failed to load store data. Please try again later."))
      ∧ (∀ (sR : Except String Store) (pR : Except String (List Product))
          (prR : Except String (List Promotion)),
          loadStoreData now sR pR (.error e) prR
            = .failure (showErrorHtml "Failed to load store data. Please try again later."))
      ∧ "Retry".data <:+:
          (showErrorHtml "Failed to load store data. Please try again later.").data := by
  intro store products categories e now
  refine ⟨rfl, rfl, ?_, ?_, ?_, ?_⟩
  · intro pR cR prR
    cases pR <;> cases cR <;> cases prR <;> rfl
  · intro sR cR prR
    cases sR <;> cases cR <;> cases prR <;> rfl
  · intro sR pR prR
    cases sR <;> cases pR <;> cases prR <;> rfl
  · decide

/-! ## C8 -/

/-- C8: the header initials are derived as the claim states —
`"Pizza Palace"` yields `"PP"`, `"Zagreb"` yields `"ZA"`, the empty name
yields the default `"ST"` — and in general `generateInitials` agrees with
the claim's derivation rule (`initialsClaimed`: first two letters of a
single-word name, first letter of each of the first two words otherwise,
`"ST"` when the name is empty). -/
theorem C8_theorem :
    generateInitials "Pizza Palace" = "PP"
    ∧ generateInitials "Zagreb" = "ZA"
    ∧ generateInitials "" = "ST"
    ∧ ∀ name : String, generateInitials name = initialsClaimed name := by
  refine ⟨by decide, by decide, rfl, ?_⟩
  intro name
  rfl

/-! ## C9 -/

/-- A non-2xx response whose error body parses to
`{ "message": "Request timeout" }`. -/
def c9Response : HttpResponse :=
  ⟨false, 500, "Internal Server Error", some ⟨some "Request timeout"⟩⟩

/-- C9, counterexample. The code throws plain `Error`s distinguished only
by message, and a non-2xx response whose parsed error body supplies the
message `"Request timeout"` produces exactly the error the timeout path
produces — so the timeout error is not distinct from every non-2xx error,
as the claim asserts. -/
theorem C9_counterexample :
    customAPIRequest (.fetched c9Response) = .error "Request timeout"
    ∧ customAPIRequest .timedOut = .error "Request timeout"
    ∧ c9Response.ok = false := by
  exact ⟨rfl, rfl, rfl⟩

/-- C9, as amended: the configured timeout defaults to 10000 ms; when the
timer wins the race the promise rejects with the fixed message
`'Request timeout'`; and the `HTTP {status}: {statusText}` fallback
message built for a non-2xx response never equals `'Request timeout'` —
but a message the non-2xx error body itself supplies can coincide with
it, since errors carry no kind beyond their message. -/
theorem C9_theorem :
    CustomAPIConfig.timeout = 10000
    ∧ customAPIRequest .timedOut = .error "Request timeout"
    ∧ ∀ (status : Nat) (statusText : String),
        (httpFallbackMessage status statusText == "Request timeout") = false := by
  refine ⟨rfl, rfl, ?_⟩
  intro status statusText
  rw [beq_eq_false_iff_ne]
  intro h
  have hd := congrArg String.data h
  simp only [httpFallbackMessage, dataAppend, List.append_assoc] at hd
  simp only [List.cons_append, List.nil_append] at hd
  injection hd with h1 _
  exact absurd h1 (by decide)

/-! ## C10 -/

/-- C10: the add-to-cart button of `renderProduct` is enabled — empty
`availability` attribute and "Add to Cart" label — exactly when
`is_available` is true and `stock_quantity` is `null` (unlimited) or
positive; in every other case the button carries the `disabled` attribute
and is labelled "Out of Stock". -/
theorem C10_theorem :
    ∀ p : Product,
      (availabilityAttr p = "" ↔
        p.is_available = true
        ∧ (p.stock_quantity = none ∨ ∃ q, p.stock_quantity = some q ∧ 0 < q))
      ∧ (buttonLabel p = "Add to Cart" ↔ availabilityAttr p = "")
      ∧ (availabilityAttr p = ""
          ∨ (availabilityAttr p = "disabled" ∧ buttonLabel p = "Out of Stock")) := by
  intro p
  obtain ⟨id, name, desc, price, catg, img, sq, avail, tags⟩ := p
  refine ⟨?_, ?_, ?_⟩
  · cases avail
    · simp [availabilityAttr, productInStock]
    · rcases sq with _ | q
      · simp [availabilityAttr, productInStock]
      · by_cases hq : (0 : Int) < q
        · simp [availabilityAttr, productInStock, hq]
        · simp [availabilityAttr, productInStock, hq]
  · cases hb : productInStock ⟨id, name, desc, price, catg, img, sq, avail, tags⟩ <;>
      simp [buttonLabel, availabilityAttr, hb]
  · cases hb : productInStock ⟨id, name, desc, price, catg, img, sq, avail, tags⟩
    · right
      simp [availabilityAttr, buttonLabel, hb]
    · left
      simp [availabilityAttr, hb]

/-- C10, witness: a concrete available product with unlimited stock gets
the enabled button, and a concrete unavailable product the disabled one. -/
theorem C10_witness :
    availabilityAttr c1Product = "" ∧ buttonLabel c1Product = "Add to Cart" := by
  have h := C10_theorem c1Product
  exact ⟨h.1.mpr ⟨rfl, Or.inl rfl⟩, h.2.1.mpr (h.1.mpr ⟨rfl, Or.inl rfl⟩)⟩

end Theme
